import Mathlib

/-!
Verification of the fetch-and-normalize pipeline of the AI-news-perspectives
app: the response sanitizer and parser, the HTTP retry client, the article
normalizers, and the perspective text renderer.

Strings are modelled as Lean `String` (sequences of Unicode scalar values);
JavaScript string lengths count UTF-16 code units, so lengths agree on all
text without astral-plane characters. All definitions are executable and
fuel-based recursions use fuel bounds large enough for the inputs considered,
so concrete runs evaluate by `rfl` or `decide`.
-/

/-- The backtick character, written by code point to keep source text plain. -/

def tickC : Char := Char.ofNat 96

/-- The apostrophe character, written by code point. -/

def aposC : Char := Char.ofNat 39

/-- The apostrophe as a one-character string. -/

def aposS : String := ⟨[aposC]⟩

/-- The opening curly bracket character. -/

def lbraceC : Char := Char.ofNat 123

/-- The closing curly bracket character. -/

def rbraceC : Char := Char.ofNat 125

/-- The opening square bracket character. -/

def lbrackC : Char := '['

/-- The closing square bracket character. -/

def rbrackC : Char := ']'

/-- The double-quote character. -/

def quoteC : Char := Char.ofNat 34

/-- The backslash character. -/

def backslashC : Char := Char.ofNat 92

/-- Whether the first list is a leading segment of the second. -/

def isPre : List Char → List Char → Bool
  | [], _ => true
  | _ :: _, [] => false
  | a :: as, b :: bs => decide (a = b) && isPre as bs

/-- Whether the first list occurs as a contiguous run somewhere in the
second: models JavaScript `String.prototype.includes`. -/

def hasSub (n : List Char) : List Char → Bool
  | [] => isPre n []
  | c :: rest => isPre n (c :: rest) || hasSub n rest

/-- Substring test on strings: `strHasSub hay needle`. -/

def strHasSub (hay needle : String) : Bool := hasSub needle.data hay.data

/-- The characters JavaScript `String.prototype.trim` removes: WhiteSpace and
LineTerminator code points of the ECMAScript standard. -/

def isJsTrimWs (c : Char) : Bool :=
  c.toNat = 9 || c.toNat = 10 || c.toNat = 11 || c.toNat = 12 || c.toNat = 13 ||
  c.toNat = 32 || c.toNat = 160 || c.toNat = 0x1680 ||
  (decide (0x2000 ≤ c.toNat) && decide (c.toNat ≤ 0x200A)) ||
  c.toNat = 0x2028 || c.toNat = 0x2029 || c.toNat = 0x202F ||
  c.toNat = 0x205F || c.toNat = 0x3000 || c.toNat = 0xFEFF

/-- JavaScript `trim` on a character list: drop trim-whitespace from both ends. -/

def jsTrimL (l : List Char) : List Char :=
  ((l.dropWhile isJsTrimWs).reverse.dropWhile isJsTrimWs).reverse

/-- JavaScript `trim` on strings. -/

def jsTrim (s : String) : String := ⟨jsTrimL s.data⟩

/-- Drop one leading newline if present: the `\n?` part of the fence regexes. -/

def dropNl (l : List Char) : List Char :=
  match l with
  | c :: rest => if c = '\n' then rest else c :: rest
  | [] => []

/-- The seven characters of a typed code fence opener. -/

def fenceJsonL : List Char := [tickC, tickC, tickC, 'j', 's', 'o', 'n']

/-- The three characters of a bare code fence marker. -/

def fenceTickL : List Char := [tickC, tickC, tickC]

/-- One global pass of `replace(/```json\n?/g, '')`: a left-to-right scan that
removes each occurrence of the typed fence opener plus one optional newline.
Fuel-based so that runs reduce in the kernel; the caller passes fuel above the
input length. -/

def stripJsonFenceF : Nat → List Char → List Char
  | 0, l => l
  | _ + 1, [] => []
  | f + 1, c :: rest =>
    if isPre fenceJsonL (c :: rest) = true then
      stripJsonFenceF f (dropNl ((c :: rest).drop 7))
    else
      c :: stripJsonFenceF f rest

/-- One global pass of `replace(/```\n?/g, '')`, analogously. -/

def stripTickFenceF : Nat → List Char → List Char
  | 0, l => l
  | _ + 1, [] => []
  | f + 1, c :: rest =>
    if isPre fenceTickL (c :: rest) = true then
      stripTickFenceF f (dropNl ((c :: rest).drop 3))
    else
      c :: stripTickFenceF f rest

/-- The typed-fence pass with sufficient fuel. -/

def stripJsonFence (l : List Char) : List Char := stripJsonFenceF (l.length + 1) l

/-- The bare-fence pass with sufficient fuel. -/

def stripTickFence (l : List Char) : List Char := stripTickFenceF (l.length + 1) l

/-- `replace(/[\u0000-\u001F]/g, '')`: drop every C0 control character. -/

def removeC0 (l : List Char) : List Char := l.filter (fun c => decide (32 ≤ c.toNat))

/-- The text after the two fence-stripping replacements of the aiResponse
effect (part_000 line 505), before the second trim: `trim`, then the typed
fence pass, then the bare fence pass. -/

def afterFences (raw : String) : String :=
  ⟨stripTickFence (stripJsonFence (jsTrimL raw.data))⟩

/-- The fully sanitized response text (part_000 lines 501-508): trim, strip
both fence forms, trim again, then remove all C0 control characters. -/

def sanitize (raw : String) : String :=
  ⟨removeC0 (jsTrimL (afterFences raw).data)⟩

/-- A parsed JSON value, as `JSON.parse` would produce it. Numbers are kept as
their source lexeme: no claim depends on numeric value, and this avoids
floating point. -/

inductive Json where
  | jnull : Json
  | jbool : Bool → Json
  | jnum : String → Json
  | jstr : String → Json
  | jarr : List Json → Json
  | jobj : List (String × Json) → Json

/-- Whether a JSON value is an array: the `Array.isArray(parsed)` test. -/

def Json.isArr : Json → Bool
  | .jarr _ => true
  | _ => false

/-- JSON insignificant whitespace (space, tab, line feed, carriage return). -/

def isJsonWs (c : Char) : Bool :=
  c.toNat = 32 || c.toNat = 9 || c.toNat = 10 || c.toNat = 13

/-- Skip JSON whitespace. -/

def skipWs (l : List Char) : List Char := l.dropWhile isJsonWs

/-- The value of a hexadecimal digit, if the character is one. -/

def hexVal (c : Char) : Option Nat :=
  if decide ('0' ≤ c) && decide (c ≤ '9') then some (c.toNat - 48)
  else if decide ('a' ≤ c) && decide (c ≤ 'f') then some (c.toNat - 87)
  else if decide ('A' ≤ c) && decide (c ≤ 'F') then some (c.toNat - 55)
  else none

/-- The character denoted by a `\uXXXX` escape. JavaScript strings may hold
lone surrogates; Lean characters cannot, so a surrogate code point maps to
the replacement character (immaterial to every claim). -/

def uDecode (n : Nat) : Char :=
  if Nat.isValidChar n then Char.ofNat n else Char.ofNat 0xFFFD

/-- Parse the body of a JSON string after its opening quote: returns the
decoded characters and the rest of the input after the closing quote.
Handles the JSON escapes; a raw control character or bad escape fails,
as `JSON.parse` would. -/

def pStrBody : Nat → List Char → Option (List Char × List Char)
  | 0, _ => none
  | _ + 1, [] => none
  | f + 1, c :: rest =>
    if c = quoteC then some ([], rest)
    else if c = backslashC then
      match rest with
      | [] => none
      | e :: rest2 =>
        if e = quoteC then (pStrBody f rest2).map (fun p => (quoteC :: p.1, p.2))
        else if e = backslashC then (pStrBody f rest2).map (fun p => (backslashC :: p.1, p.2))
        else if e = '/' then (pStrBody f rest2).map (fun p => ('/' :: p.1, p.2))
        else if e = 'b' then (pStrBody f rest2).map (fun p => (Char.ofNat 8 :: p.1, p.2))
        else if e = 'f' then (pStrBody f rest2).map (fun p => (Char.ofNat 12 :: p.1, p.2))
        else if e = 'n' then (pStrBody f rest2).map (fun p => ('\n' :: p.1, p.2))
        else if e = 'r' then (pStrBody f rest2).map (fun p => (Char.ofNat 13 :: p.1, p.2))
        else if e = 't' then (pStrBody f rest2).map (fun p => ('\t' :: p.1, p.2))
        else if e = 'u' then
          match rest2 with
          | h1 :: h2 :: h3 :: h4 :: rest3 =>
            match hexVal h1, hexVal h2, hexVal h3, hexVal h4 with
            | some a, some b, some c2, some d =>
              (pStrBody f rest3).map
                (fun p => (uDecode (a * 4096 + b * 256 + c2 * 16 + d) :: p.1, p.2))
            | _, _, _, _ => none
          | _ => none
        else none
    else if decide (c.toNat < 32) then none
    else (pStrBody f rest).map (fun p => (c :: p.1, p.2))

/-- Whether a character is a decimal digit. -/

def isDigitC (c : Char) : Bool := decide ('0' ≤ c) && decide (c ≤ '9')

/-- Parse a JSON number as its lexeme, following the JSON number grammar
`-?(0|[1-9][0-9]*)(\.[0-9]+)?([eE][+-]?[0-9]+)?`. -/

def pNum (l : List Char) : Option (List Char × List Char) :=
  let (sign, l1) :=
    match l with
    | '-' :: rest => (['-'], rest)
    | _ => (([] : List Char), l)
  match l1 with
  | [] => none
  | c :: rest =>
    if ¬ (isDigitC c = true) then none
    else
      let (intPart, l2) :=
        if c = '0' then ([c], rest)
        else
          let (ds, r) := rest.span isDigitC
          (c :: ds, r)
      match l2 with
      | '.' :: r =>
        let (ds, r2) := r.span isDigitC
        if ds = [] then none
        else pNumExp (sign ++ intPart ++ '.' :: ds) r2
      | _ => pNumExp (sign ++ intPart) l2
where
  /-- Parse the optional exponent part and finish the lexeme. -/
  pNumExp (acc : List Char) (l : List Char) : Option (List Char × List Char) :=
    match l with
    | e :: r =>
      if e = 'e' ∨ e = 'E' then
        let (sgn, r1) :=
          match r with
          | '+' :: r2 => (['+'], r2)
          | '-' :: r2 => (['-'], r2)
          | _ => (([] : List Char), r)
        let (ds, r2) := r1.span isDigitC
        if ds = [] then none else some (acc ++ [e] ++ sgn ++ ds, r2)
      else some (acc, e :: r)
    | [] => some (acc, [])

/-- What the JSON scanner is currently asked to read: a value, or the inside
of an array or object after its opening bracket. -/

inductive PReq where
  | value : PReq
  | elemsStart : PReq
  | elemsRest : List Json → PReq
  | membersStart : PReq
  | membersRest : List (String × Json) → PReq

/-- The recursive-descent scanner behind `JSON.parse`, fuelled so it is
structurally recursive and reduces in the kernel. Returns the parsed value
and the unconsumed input. -/

def pRun : Nat → PReq → List Char → Option (Json × List Char)
  | 0, _, _ => none
  | f + 1, PReq.value, l =>
    match skipWs l with
    | [] => none
    | c :: rest =>
      if c = lbraceC then pRun f PReq.membersStart rest
      else if c = lbrackC then pRun f PReq.elemsStart rest
      else if c = quoteC then
        (pStrBody (rest.length + 1) rest).map (fun p => (Json.jstr ⟨p.1⟩, p.2))
      else if c = 't' then
        match rest with
        | 'r' :: 'u' :: 'e' :: r => some (Json.jbool true, r)
        | _ => none
      else if c = 'f' then
        match rest with
        | 'a' :: 'l' :: 's' :: 'e' :: r => some (Json.jbool false, r)
        | _ => none
      else if c = 'n' then
        match rest with
        | 'u' :: 'l' :: 'l' :: r => some (Json.jnull, r)
        | _ => none
      else (pNum (c :: rest)).map (fun p => (Json.jnum ⟨p.1⟩, p.2))
  | f + 1, PReq.elemsStart, l =>
    match skipWs l with
    | [] => none
    | c :: rest =>
      if c = rbrackC then some (Json.jarr [], rest)
      else
        match pRun f PReq.value (c :: rest) with
        | some (v, r) => pRun f (PReq.elemsRest [v]) r
        | none => none
  | f + 1, PReq.elemsRest acc, l =>
    match skipWs l with
    | [] => none
    | c :: rest =>
      if c = ',' then
        match pRun f PReq.value rest with
        | some (v, r) => pRun f (PReq.elemsRest (acc ++ [v])) r
        | none => none
      else if c = rbrackC then some (Json.jarr acc, rest)
      else none
  | f + 1, PReq.membersStart, l =>
    match skipWs l with
    | [] => none
    | c :: rest =>
      if c = rbraceC then some (Json.jobj [], rest)
      else if c = quoteC then
        match pStrBody (rest.length + 1) rest with
        | some (k, r) =>
          match skipWs r with
          | ':' :: r2 =>
            match pRun f PReq.value r2 with
            | some (v, r3) => pRun f (PReq.membersRest [(⟨k⟩, v)]) r3
            | none => none
          | _ => none
        | none => none
      else none
  | f + 1, PReq.membersRest acc, l =>
    match skipWs l with
    | [] => none
    | c :: rest =>
      if c = ',' then
        match skipWs rest with
        | c2 :: rest2 =>
          if c2 = quoteC then
            match pStrBody (rest2.length + 1) rest2 with
            | some (k, r) =>
              match skipWs r with
              | ':' :: r2 =>
                match pRun f PReq.value r2 with
                | some (v, r3) => pRun f (PReq.membersRest (acc ++ [(⟨k⟩, v)])) r3
                | none => none
              | _ => none
            | none => none
          else none
        | [] => none
      else if c = rbraceC then some (Json.jobj acc, rest)
      else none

/-- `JSON.parse`: parse one JSON value and require only whitespace after it.
The fuel bound exceeds the number of scanner steps any input of this length
can need; an input nested beyond it fails, as an engine stack overflow would,
and every failure of `JSON.parse` is modelled as `none`. -/

def parseJson (s : String) : Option Json :=
  match pRun (s.data.length * 4 + 8) PReq.value s.data with
  | some (v, rest) => if skipWs rest = [] then some v else none
  | none => none

/-- `aiText.startsWith('[') || aiText.startsWith('{')` (part_000 line 510). -/

def startsBracket (s : String) : Bool :=
  match s.data with
  | c :: _ => decide (c = lbrackC) || decide (c = lbraceC)
  | [] => false

/-- The synthetic fallback record `{ "Generated article": aiText }`. -/

def syntheticRecord (t : String) : Json :=
  Json.jobj [("Generated article", Json.jstr t)]

/-- The aiResponse parsing effect (part_000 lines 499-521): sanitize, then
decode as JSON when the text looks structured, wrapping a lone object into a
one-element list; any other shape or any decode failure yields exactly one
synthetic record carrying the sanitized text. Total by construction: the
`catch` never lets an error reach the caller. -/

def parseAiResponse (raw : String) : List Json :=
  let t := sanitize raw
  if startsBracket t = true then
    match parseJson t with
    | some (Json.jarr l) => l
    | some j => [j]
    | none => [syntheticRecord t]
  else [syntheticRecord t]

/-- Retry configuration (part_001 lines 363-364). -/

def MAX_RETRIES : Nat := 3

/-- The base delay in milliseconds (part_001 line 364). -/

def RETRY_DELAY : Nat := 2000

/-- What one attempt of the `fetch` call in `groqResponse` comes to:
`ok content` is a completed response with `response.ok` true whose body
decoded to a message content; `http status body` is a completed response with
`response.ok` false (status outside 200-299); `net isTypeErr msg` is a
transport-level exception (`isTypeErr` true for a `TypeError`, `msg` its
message). The endpoint's behaviour per attempt number is a function, so one
run is a function `Nat → Outcome`. -/

inductive Outcome where
  | ok : String → Outcome
  | http : Nat → String → Outcome
  | net : Bool → String → Outcome
deriving DecidableEq

/-- The errors `groqResponse` can fail with. -/

inductive GroqErr where
  | config : GroqErr
  | svcUnavail : Nat → String → GroqErr
  | api : Nat → String → GroqErr
  | net : Bool → String → GroqErr
  | exhausted : GroqErr
deriving DecidableEq

/-- The result of a run: the content or error, the delays waited (in order,
milliseconds), and the number of the attempt on which the run ended. -/

inductive Run where
  | success : String → List Nat → Nat → Run
  | failed : GroqErr → List Nat → Nat → Run
deriving DecidableEq

/-- The attempt count a run ended on. -/

def attemptsOf : Run → Nat
  | Run.success _ _ a => a
  | Run.failed _ _ a => a

/-- The message of the error thrown for a non-ok response other than 503
(part_001 line 475): `Groq API error: ${status} - ${errorText}`. -/

def apiErrMsg (status : Nat) (body : String) : String :=
  "Groq API error: " ++ toString status ++ " - " ++ body

/-- `error.message.includes('fetch')`. -/

def includesFetch (s : String) : Bool := hasSub ("fetch".data) s.data

/-- The retry loop of `groqResponse` (part_001 lines 448-493). `n` is the
1-based attempt number, `ds` the delays waited so far. A 503 with attempts
remaining waits `RETRY_DELAY * n` and retries; a 503 on the last attempt
throws the terminal service-unavailable error, which the catch clause
rethrows because no attempts remain. Any other non-ok status throws the
Groq-API error; the catch clause retries it only when attempts remain and
the error is a `TypeError` or its message contains "fetch" — which the
API-error message does exactly when the response body does. The fuel equals
the attempts remaining and is never exhausted from the real entry point. -/

def goAttempt (outcomes : Nat → Outcome) : Nat → Nat → List Nat → Run
  | 0, n, ds => Run.failed GroqErr.exhausted ds (n - 1)
  | fuel + 1, n, ds =>
    match outcomes n with
    | Outcome.ok c => Run.success c ds n
    | Outcome.http s b =>
      if s = 503 then
        if n < MAX_RETRIES then
          goAttempt outcomes fuel (n + 1) (ds ++ [RETRY_DELAY * n])
        else Run.failed (GroqErr.svcUnavail s b) ds n
      else
        if n < MAX_RETRIES ∧ includesFetch (apiErrMsg s b) = true then
          goAttempt outcomes fuel (n + 1) (ds ++ [RETRY_DELAY * n])
        else Run.failed (GroqErr.api s b) ds n
    | Outcome.net isTE msg =>
      if n < MAX_RETRIES ∧ (isTE = true ∨ includesFetch msg = true) then
        goAttempt outcomes fuel (n + 1) (ds ++ [RETRY_DELAY * n])
      else Run.failed (GroqErr.net isTE msg) ds n

/-- The retry loop entered at attempt 1 with no delays. -/

def groqRun (outcomes : Nat → Outcome) : Run := goAttempt outcomes MAX_RETRIES 1 []

/-- `groqResponse` (part_001 lines 369-494): the API-key guard at lines
378-381 throws a configuration error before the loop — and so before any
attempt — when the key is absent (the empty string, which is falsy) or
whitespace-only. -/

def groqResponse (apiKey : String) (outcomes : Nat → Outcome) : Run :=
  if apiKey = "" ∨ jsTrim apiKey = "" then Run.failed GroqErr.config [] 0
  else groqRun outcomes

/-- JavaScript `a || b` for strings: the empty string is falsy. -/

def fromFalsyS (a b : String) : String := if a = "" then b else a

/-- JavaScript `x || d` where `x` is an optional field: absent (undefined)
and the empty string are both falsy. -/

def fromFalsy (o : Option String) (d : String) : String :=
  match o with
  | some s => if s = "" then d else s
  | none => d

/-- The text before the first occurrence of the separator, or the whole text
when the separator does not occur: JavaScript `s.split(sep)[0]` for a
non-empty literal separator. -/

def beforeSep (sep : List Char) : List Char → List Char
  | [] => []
  | c :: rest =>
    if isPre sep (c :: rest) = true then []
    else c :: beforeSep sep rest

/-- `s.split(sep)[0]` on strings. -/

def beforeSepS (sep s : String) : String := ⟨beforeSep sep.data s.data⟩

/-- JavaScript `s.substring(0, n)`. -/

def strTake (s : String) (n : Nat) : String := ⟨s.data.take n⟩

/-- One decoded generated record with the fields the list-screen mapping
reads: `"Generated article"`, `"Timestamp"`, `"Source URL"` (absent fields
are `none`). -/

structure RawGeneratedRecord where
  generatedArticle : Option String
  timestamp : Option String
  sourceUrl : Option String
deriving DecidableEq

/-- The normalized article shape the screens consume. Fields a mapping never
sets are the empty string (an absent JavaScript property is falsy, as the
empty string is). -/

structure Article where
  id : String
  title : String
  originalTitle : String
  summary : String
  originalSummary : String
  imageUrl : String
  publishedAt : String
  originalUrl : String
  source : String
  aiGenerated : Bool
  generatedArticle : String
  inputPersonName : String
deriving DecidableEq

/-- The fixed placeholder-image rotation (part_000 lines 568-574). -/

def newsImages : List String :=
  [ "https://images.pexels.com/photos/518543/pexels-photo-518543.jpeg?auto=compress&cs=tinysrgb&w=800",
    "https://images.pexels.com/photos/1591056/pexels-photo-1591056.jpeg?auto=compress&cs=tinysrgb&w=800",
    "https://images.pexels.com/photos/1591447/pexels-photo-1591447.jpeg?auto=compress&cs=tinysrgb&w=800",
    "https://images.pexels.com/photos/1591061/pexels-photo-1591061.jpeg?auto=compress&cs=tinysrgb&w=800",
    "https://images.pexels.com/photos/163064/play-stone-network-networked-interactive-163064.jpeg?auto=compress&cs=tinysrgb&w=800" ]

/-- `getRandomNewsImage` (part_000 lines 567-576): despite the name, a pure
positional pick `newsImages[index % newsImages.length]`. -/

def getRandomNewsImage (index : Nat) : String :=
  newsImages.getD (index % newsImages.length) ""

/-- The generated-record mapping of the list screen (part_000 lines 524-560):
derive a title (text before the first period, with the period restored, or
the first 60 characters plus an ellipsis when that text exceeds 80
characters), derive a summary (text before the first blank line, falling back
on the empty string to the text before the first newline, truncated past 200
characters), and fill the remaining fields with positional and literal
fallbacks. -/

def mapGenerated (article : RawGeneratedRecord) (idx : Nat) (selectedPerson : String) :
    Article :=
  let generatedContent := fromFalsy article.generatedArticle ""
  let firstSentence := beforeSepS "." generatedContent
  let titleVar :=
    if generatedContent = "" then ""
    else if 80 < firstSentence.data.length then strTake generatedContent 60 ++ "..."
    else firstSentence ++ "."
  let firstParagraph :=
    fromFalsyS (beforeSepS "\n\n" generatedContent) (beforeSepS "\n" generatedContent)
  let summaryVar :=
    if generatedContent = "" then ""
    else if 200 < firstParagraph.data.length then strTake firstParagraph 200 ++ "..."
    else firstParagraph
  { id := toString (idx + 1),
    title := fromFalsyS titleVar
      (selectedPerson ++ aposS ++ "s Perspective on Current Events"),
    originalTitle := "",
    summary := fromFalsyS summaryVar (strTake generatedContent 200 ++ "..."),
    originalSummary := "",
    imageUrl := getRandomNewsImage idx,
    publishedAt := fromFalsy article.timestamp "Today",
    originalUrl := fromFalsy article.sourceUrl "",
    source := "BBC News",
    aiGenerated := true,
    generatedArticle := generatedContent,
    inputPersonName := selectedPerson }

/-- One vendor record with the fields `mapApiArticleToNewsArticle` reads
(part_002 lines 25-36); absent fields are `none`. -/

structure ApiArticle where
  title : Option String
  snippet : Option String
  thumbnail_url : Option String
  link : Option String
  source_name : Option String
  published_datetime_utc : Option String
deriving DecidableEq

/-- `mapApiArticleToNewsArticle` (part_002 lines 25-36): a straight field
remapping. The returned object has no `title` property at all — only
`originalTitle` — and synthesizes no fallback. -/

def mapApiArticleToNewsArticle (apiArticle : ApiArticle) (idx : Nat) : Article :=
  { id := toString (idx + 1),
    title := "",
    originalTitle := fromFalsy apiArticle.title "",
    summary := "",
    originalSummary := fromFalsy apiArticle.snippet "",
    imageUrl := fromFalsy apiArticle.thumbnail_url
      "https://images.pexels.com/photos/163064/play-stone-network-networked-interactive-163064.jpeg?auto=compress&cs=tinysrgb&w=800",
    publishedAt := fromFalsy apiArticle.published_datetime_utc "",
    originalUrl := fromFalsy apiArticle.link "",
    source := fromFalsy apiArticle.source_name "",
    aiGenerated := false,
    generatedArticle := "",
    inputPersonName := "" }

/-- Fixed text of the Einstein template before the interpolated title
(part_000 lines 173-176). -/

def einsteinA : String :=
  "\nMy dear friends,\n\nAs I sit in my study, contemplating the intricate dance of particles and waves that governs our universe, I find myself drawn to examine this fascinating development: \""

/-- Fixed text of the Einstein template between title and summary. -/

def einsteinB : String := "\".\n\n"

/-- Fixed text of the Einstein template after the interpolated summary
(part_000 lines 180-190). -/

def einsteinC : String :=
  "\n\nFrom my perspective as a physicist, I see in this situation the same fundamental principles that govern the cosmos. Just as E=mc² reveals the profound relationship between mass and energy, so too does this event illuminate the deeper connections between human endeavor and the natural laws that bind us all.\n\nThe curiosity that drives scientific inquiry compels us to ask not merely \"what\" has occurred, but \"why\" and \"how.\" In examining these circumstances, we must remember that the universe operates according to principles that transcend our immediate understanding, yet reward patient observation and thoughtful analysis.\n\nI am reminded of my belief that \"imagination is more important than knowledge.\" While we must ground ourselves in facts and evidence, we must also dare to envision possibilities that extend beyond our current comprehension. This situation presents such an opportunity for intellectual growth.\n\nThe responsibility of knowledge weighs heavily upon those who seek to understand the world"
  ++ aposS ++
  "s complexities. As we witness these developments unfold, we must remember that our role is not merely to observe, but to contribute to the greater understanding of humanity"
  ++ aposS ++
  "s place in this magnificent cosmos.\n\nWith warm regards and endless curiosity,\nAlbert Einstein\n    "

/-- The `'Albert Einstein'` persona template (part_000 lines 173-190). -/

def tmplEinstein (title summary : String) : String :=
  einsteinA ++ title ++ einsteinB ++ summary ++ einsteinC

/-- Fixed text of the Oprah template before the interpolated title
(part_000 lines 191-194). -/

def oprahA : String :=
  "\nHello, beautiful souls!\n\nWhat moves me most deeply about this story - \""

/-- Fixed text of the Oprah template between title and summary. -/

def oprahB : String := "\" - is the human element at its very core.\n\n"

/-- Fixed text of the Oprah template after the interpolated summary
(part_000 lines 198-212). -/

def oprahC : String :=
  "\n\nBehind every headline, every statistic, every development, there are real people with real dreams, real struggles, and real triumphs. I"
  ++ aposS ++
  "ve learned through my years of connecting with people from all walks of life that our stories are what bind us together.\n\nThis situation reminds me of the countless conversations I"
  ++ aposS ++
  "ve had where someone"
  ++ aposS ++
  "s vulnerability led to breakthrough, where their courage inspired others to find their own strength. The power of authenticity shines through in moments like these.\n\nWhat I know for sure is that every challenge presents an opportunity for transformation. The individuals affected by these circumstances have within them the power to not just survive, but to thrive. Their stories will inspire others, creating ripples of positive change that extend far beyond what we can imagine.\n\nWhen I look at this situation, I don"
  ++ aposS ++
  "t just see facts and figures - I see the beautiful, complex, ever-evolving story of human experience. I see resilience. I see hope. I see the potential for growth and healing.\n\nAs we witness these events unfold, I encourage each of us to approach them with empathy, understanding, and a willingness to learn. The greatest gift we can give one another is our presence, our attention, and our belief in the possibility of better days ahead.\n\nThis is what I see when I look at this development: not just news, but a reminder of our shared humanity and our incredible capacity for love, growth, and positive change.\n\nMuch love and light,\nOprah\n    "

/-- The `'Oprah Winfrey'` persona template (part_000 lines 191-212). -/

def tmplOprah (title summary : String) : String :=
  oprahA ++ title ++ oprahB ++ summary ++ oprahC

/-- Fixed text of the Musk template before the interpolated title
(part_000 line 214). -/

def elonA : String := "\nLooking at \""

/-- Fixed text of the Musk template between title and summary. -/

def elonB : String :=
  "\" from first principles, we need to break down this problem to its fundamental components.\n\n"

/-- Fixed text of the Musk template after the interpolated summary
(part_000 lines 218-233). -/

def elonC : String :=
  "\n\nThe question I always ask is: what would it take to make this 10 times better? Incremental improvements aren"
  ++ aposS ++
  "t enough when we"
  ++ aposS ++
  "re dealing with challenges of this magnitude. We need to think exponentially, not linearly.\n\nFrom an engineering perspective, every problem is solvable with the right combination of talent, resources, and determination. The key is to identify the biggest bottlenecks and attack them with relentless focus. We can"
  ++ aposS ++
  "t afford to optimize for the wrong variables.\n\nWhat excites me about this development is the potential for technological solutions that could fundamentally change how we approach similar challenges in the future. Whether we"
  ++ aposS ++
  "re talking about sustainable energy, space exploration, or artificial intelligence, the principles remain the same: identify the physics constraints, gather the best team possible, and iterate rapidly.\n\nThe timeline for meaningful change is always faster than people think, but slower than we"
  ++ aposS ++
  "d like. That"
  ++ aposS ++
  "s why we need to maintain urgency while also being realistic about the complexity of the problems we"
  ++ aposS ++
  "re trying to solve.\n\nWe"
  ++ aposS ++
  "re living in the most exciting time in human history. The tools we have access to today - from advanced manufacturing to artificial intelligence to global communication networks - give us unprecedented ability to solve problems that previous generations could only dream of addressing.\n\nThe future is going to be wild, and developments like this are just the beginning of what"
  ++ aposS ++
  "s possible when human ingenuity meets cutting-edge technology.\n\nLet"
  ++ aposS ++
  "s build something great together.\n\n- Elon\n    "

/-- The `'Elon Musk'` persona template (part_000 lines 213-233). -/

def tmplElon (title summary : String) : String :=
  elonA ++ title ++ elonB ++ summary ++ elonC

/-- Fixed text of the generic template before the interpolated title. -/

def defaultA : String := "\n\""

/-- Fixed text of the generic template between title and summary. -/

def defaultB : String := "\"\n\n"

/-- Fixed text of the generic template after the interpolated summary
(part_000 lines 239-248). -/

def defaultC : String :=
  "\n\nThis development represents a significant moment in our ongoing dialogue about the challenges and opportunities facing our world today. As we examine the various facets of this story, it becomes clear that we are witnessing a convergence of factors that will likely influence how we approach similar situations in the future.\n\nThe human element in this story cannot be overlooked. Behind every policy decision, every technological advancement, and every social movement are individuals whose lives are directly affected by these changes. Their experiences provide valuable insights into the real-world implications of these developments.\n\nFrom a broader perspective, this situation highlights the interconnected nature of our global society. Actions and decisions in one area often have far-reaching consequences that extend well beyond their immediate context. Understanding these connections is crucial for anyone seeking to make informed decisions about the future.\n\nThe path forward requires careful consideration of both immediate needs and long-term implications. While it"
  ++ aposS ++
  "s tempting to focus solely on short-term solutions, sustainable progress often requires us to take a more comprehensive view of the challenges we face.\n\nAs we continue to monitor these developments, it"
  ++ aposS ++
  "s important to maintain both optimism about our collective ability to address complex challenges and realism about the work that lies ahead. The solutions we develop today will shape the world we leave for future generations.\n    "

/-- The `'Default'` template (part_000 lines 234-248). -/

def tmplDefault (title summary : String) : String :=
  defaultA ++ title ++ defaultB ++ summary ++ defaultC

/-- What evaluating `template(title, summary)` comes to: a primitive string
(every template function, and the inherited `toString`), the boolean `false`
(the inherited `isPrototypeOf` applied to a non-object), a String wrapper
object of the title (the inherited `constructor`, which is `Object`), or a
thrown TypeError (the remaining inherited properties). -/

inductive RenderResult where
  | str : String → RenderResult
  | boolFalse : RenderResult
  | strObj : String → RenderResult
  | typeError : RenderResult
deriving DecidableEq

/-- The own keys of the `articleTemplates` object literal (part_000 lines
172-249). -/

def tableKeys : List String :=
  ["Albert Einstein", "Oprah Winfrey", "Elon Musk", "Default"]

/-- The string-keyed properties of `Object.prototype` (ECMAScript 19.1.3 and
B.2.2), which a bracket access on an object literal reaches through the
prototype chain when no own key matches. -/

def protoPropNames : List String :=
  ["constructor", "hasOwnProperty", "isPrototypeOf", "propertyIsEnumerable",
   "toLocaleString", "toString", "valueOf", "__defineGetter__", "__defineSetter__",
   "__lookupGetter__", "__lookupSetter__", "__proto__"]

/-- The `Object.prototype` properties whose value, called as
`template(title, summary)` with an undefined `this` (strict-mode module
code), throws a TypeError: `hasOwnProperty`, `propertyIsEnumerable`,
`toLocaleString`, `valueOf` and the four Annex-B accessor-definition methods
all perform `ToObject(this)` on (or invoke a method of) the undefined `this`;
`__proto__` resolves via its getter to `Object.prototype` itself, which is
not callable. -/

def throwingProtoNames : List String :=
  ["hasOwnProperty", "propertyIsEnumerable", "toLocaleString", "valueOf",
   "__defineGetter__", "__defineSetter__", "__lookupGetter__", "__lookupSetter__",
   "__proto__"]

/-- `generateFullAIArticle` (part_000 lines 171-253). The lookup
`articleTemplates[person] || articleTemplates.Default` (line 251) is a
JavaScript bracket access on an object literal: it finds the four own keys
first, but otherwise consults the prototype chain, and every inherited
`Object.prototype` value is truthy, so those names never fall back to the
Default template. The chosen value is then called as
`template(title, summary)` in strict-mode module code (`this` undefined):
the inherited `toString` returns the string `[object Undefined]`; the
inherited `constructor` is `Object`, which called on the title returns a
String wrapper object of it (the second argument is ignored); the inherited
`isPrototypeOf` returns `false` because its argument is a string, not an
object; the remaining inherited properties make the call throw a TypeError
(see `throwingProtoNames`). Any name missing from the whole chain yields
`undefined`, which is falsy, and falls back to the Default template. -/

def generateFullAIArticle (person title summary : String) : RenderResult :=
  if person = "Albert Einstein" then RenderResult.str (tmplEinstein title summary)
  else if person = "Oprah Winfrey" then RenderResult.str (tmplOprah title summary)
  else if person = "Elon Musk" then RenderResult.str (tmplElon title summary)
  else if person = "Default" then RenderResult.str (tmplDefault title summary)
  else if person = "toString" then RenderResult.str "[object Undefined]"
  else if person = "constructor" then RenderResult.strObj title
  else if person = "isPrototypeOf" then RenderResult.boolFalse
  else if person ∈ throwingProtoNames then RenderResult.typeError
  else RenderResult.str (tmplDefault title summary)

/-- The title derivation as the spec words it (its §4.4, amended for claim
C9): the text before the first period with the period restored when that
fragment is at most 80 characters, otherwise the first 60 characters of the
body plus an ellipsis. -/

def specTitleOfBody (body : String) : String :=
  if (beforeSepS "." body).data.length ≤ 80 then beforeSepS "." body ++ "."
  else strTake body 60 ++ "..."

/-- The summary derivation as the spec words it (its §4.4, amended for claim
C4): the text before the first double newline, falling back when that is
empty to the text before the first single newline; truncated to 200
characters plus an ellipsis when longer; and when still empty, the first 200
characters of the full body plus an ellipsis. -/

def specSummaryOfBody (body : String) : String :=
  let p0 := beforeSepS "\n\n" body
  let p1 := if p0 = "" then beforeSepS "\n" body else p0
  let s := if 200 < p1.data.length then strTake p1 200 ++ "..." else p1
  if s = "" then strTake body 200 ++ "..." else s

theorem strData_append (s t : String) : (s ++ t).data = s.data ++ t.data := by
  cases s
  cases t
  rfl

theorem str_eq_empty_iff (s : String) : s = "" ↔ s.data = [] := by
  constructor
  · intro h
    rw [h]
  · intro h
    cases s with
    | mk l =>
      simp only at h
      subst h
      rfl

theorem append_ne_empty_of_right (x y : String) (h : y.data.length ≠ 0) :
    x ++ y ≠ "" := by
  intro he
  have hd := congrArg String.data he
  rw [strData_append] at hd
  have h2 : x.data.length + y.data.length = 0 := by
    rw [← List.length_append, hd]
    rfl
  omega

theorem isPre_refl_append (n b : List Char) : isPre n (n ++ b) = true := by
  induction n with
  | nil => rfl
  | cons a as ih => simp [isPre, ih]

theorem isPre_weaken (a : Char) (as l : List Char) (h : isPre (a :: as) l = true) :
    isPre [a] l = true := by
  cases l with
  | nil => simp [isPre] at h
  | cons b bs =>
    simp only [isPre, Bool.and_eq_true, decide_eq_true_eq] at h
    simp [isPre, h.1]

theorem hasSub_head (n b : List Char) : hasSub n (n ++ b) = true := by
  cases n with
  | nil => cases b <;> simp [hasSub, isPre]
  | cons x xs =>
    simp only [List.cons_append, hasSub, Bool.or_eq_true]
    left
    simpa [isPre] using isPre_refl_append xs b

theorem hasSub_append_left (x n y : List Char) (h : hasSub n y = true) :
    hasSub n (x ++ y) = true := by
  induction x with
  | nil => simpa using h
  | cons c xs ih =>
    simp only [List.cons_append, hasSub, Bool.or_eq_true]
    right
    exact ih

theorem strHasSub_five (A t B s C : String) :
    strHasSub (A ++ t ++ B ++ s ++ C) t = true ∧
    strHasSub (A ++ t ++ B ++ s ++ C) s = true := by
  unfold strHasSub
  simp only [strData_append, List.append_assoc]
  constructor
  · exact hasSub_append_left _ _ _ (hasSub_head _ _)
  · exact hasSub_append_left _ _ _
      (hasSub_append_left _ _ _ (hasSub_append_left _ _ _ (hasSub_head _ _)))

theorem dropNl_length (l : List Char) : (dropNl l).length ≤ l.length := by
  cases l with
  | nil => simp [dropNl]
  | cons c rest =>
    by_cases h : c = '\n' <;> simp [dropNl, h]

theorem stripTickF_one (f : Nat) (l : List Char)
    (h : isPre [tickC] (stripTickFenceF f l) = true) : isPre [tickC] l = true := by
  match f, l with
  | 0, l => exact h
  | f + 1, [] => simp [stripTickFenceF, isPre] at h
  | f + 1, c :: rest =>
    by_cases hc : isPre fenceTickL (c :: rest) = true
    · simp only [fenceTickL, isPre, Bool.and_eq_true, decide_eq_true_eq] at hc
      obtain ⟨h1, -⟩ := hc
      subst h1
      simp [isPre]
    · have hres : stripTickFenceF (f + 1) (c :: rest) = c :: stripTickFenceF f rest := by
        simp [stripTickFenceF, hc]
      rw [hres] at h
      simp only [isPre, Bool.and_eq_true, decide_eq_true_eq] at h
      obtain ⟨h1, -⟩ := h
      subst h1
      simp [isPre]

theorem stripTickF_two (f : Nat) (l : List Char)
    (h : isPre [tickC, tickC] (stripTickFenceF f l) = true) :
    isPre [tickC, tickC] l = true := by
  match f, l with
  | 0, l => exact h
  | f + 1, [] => simp [stripTickFenceF, isPre] at h
  | f + 1, c :: rest =>
    by_cases hc : isPre fenceTickL (c :: rest) = true
    · simp only [fenceTickL, isPre, Bool.and_eq_true, decide_eq_true_eq] at hc
      obtain ⟨h1, h2⟩ := hc
      subst h1
      have h4 := isPre_weaken tickC [tickC] rest h2
      simp [isPre, h4]
    · have hres : stripTickFenceF (f + 1) (c :: rest) = c :: stripTickFenceF f rest := by
        simp [stripTickFenceF, hc]
      rw [hres] at h
      simp only [isPre, Bool.and_eq_true, decide_eq_true_eq] at h
      obtain ⟨h1, h2⟩ := h
      subst h1
      have h3 := stripTickF_one f rest h2
      simp [isPre, h3]

theorem stripTickF_noTriple (f : Nat) : ∀ l : List Char, l.length < f →
    hasSub fenceTickL (stripTickFenceF f l) = false := by
  induction f with
  | zero =>
    intro l h
    exact absurd h (Nat.not_lt_zero _)
  | succ f ih =>
    intro l hlen
    match l with
    | [] => simp [stripTickFenceF, hasSub, fenceTickL, isPre]
    | c :: rest =>
      simp only [List.length_cons] at hlen
      by_cases hc : isPre fenceTickL (c :: rest) = true
      · have hres : stripTickFenceF (f + 1) (c :: rest)
            = stripTickFenceF f (dropNl ((c :: rest).drop 3)) := by
          simp [stripTickFenceF, hc]
        rw [hres]
        apply ih
        have h1 : ((c :: rest).drop 3).length ≤ rest.length := by
          simp [List.length_drop]
        have h2 := dropNl_length ((c :: rest).drop 3)
        omega
      · have hres : stripTickFenceF (f + 1) (c :: rest) = c :: stripTickFenceF f rest := by
          simp [stripTickFenceF, hc]
        rw [hres]
        have hS : hasSub fenceTickL (stripTickFenceF f rest) = false := by
          apply ih
          omega
        rw [show hasSub fenceTickL (c :: stripTickFenceF f rest)
            = (isPre fenceTickL (c :: stripTickFenceF f rest)
               || hasSub fenceTickL (stripTickFenceF f rest)) from rfl]
        rw [hS, Bool.or_false]
        cases hp : isPre fenceTickL (c :: stripTickFenceF f rest) with
        | false => rfl
        | true =>
          exfalso
          simp only [fenceTickL, isPre, Bool.and_eq_true, decide_eq_true_eq] at hp
          obtain ⟨h1, h2⟩ := hp
          subst h1
          have h3 := stripTickF_two f rest h2
          exact hc (by simp [fenceTickL, isPre, h3])

theorem removeC0_all (l : List Char) :
    (removeC0 l).all (fun c => decide (32 ≤ c.toNat)) = true := by
  rw [List.all_eq_true]
  intro c hcmem
  exact (List.mem_filter.mp hcmem).2

/-- Claim C6, amended: for every raw input the sanitized text contains no
character in the range U+0000-U+001F, and the fence-stripping stage leaves no
fence marker (no run of three backticks) in its output; the later
control-character removal can however re-join backticks that flanked a
control character into a new marker, so the final text is not fence-free in
general (see the counterexample). -/

theorem c6_sanitize_clean (raw : String) :
    (sanitize raw).data.all (fun c => decide (32 ≤ c.toNat)) = true ∧
    hasSub fenceTickL (afterFences raw).data = false := by
  constructor
  · exact removeC0_all _
  · show hasSub fenceTickL (stripTickFence (stripJsonFence (jsTrimL raw.data))) = false
    exact stripTickF_noTriple _ _ (Nat.lt_succ_self _)

/-- Claim C6, counterexample to the claim as stated: the input
`` ```\n``\u0001` `` contains a fence marker and a C0 control character, yet
its sanitized form is `` ``` `` — removing the control character joined the
two stray backticks with the final one into a new fence marker. -/

theorem c6_counterexample :
    hasSub fenceTickL
      (String.mk [tickC, tickC, tickC, '\n', tickC, tickC, Char.ofNat 1, tickC]).data
      = true ∧
    (String.mk [tickC, tickC, tickC, '\n', tickC, tickC, Char.ofNat 1, tickC]).data.any
      (fun c => decide (c.toNat < 32)) = true ∧
    hasSub fenceTickL
      (sanitize (String.mk [tickC, tickC, tickC, '\n', tickC, tickC, Char.ofNat 1, tickC])).data
      = true := by
  decide

/-- Claim C1, amended: the parser is total by construction and never raises;
when the cleaned text starts with `[` or `{` and decodes as a JSON array it
yields exactly the array's elements as records — so a valid array of N
objects yields exactly those N records, and an empty array yields zero
records; a decoded non-array value yields exactly that one record; in every
other case (text not starting with a bracket, or a decode failure) it yields
exactly one synthetic record whose "Generated article" field is the full
cleaned text. -/

theorem c1_parse_cases (raw : String) :
    (∀ l, startsBracket (sanitize raw) = true →
        parseJson (sanitize raw) = some (Json.jarr l) → parseAiResponse raw = l) ∧
    (∀ j, startsBracket (sanitize raw) = true →
        parseJson (sanitize raw) = some j → j.isArr = false →
        parseAiResponse raw = [j]) ∧
    (startsBracket (sanitize raw) = false ∨ parseJson (sanitize raw) = none →
        parseAiResponse raw
          = [Json.jobj [("Generated article", Json.jstr (sanitize raw))]]) := by
  refine ⟨?_, ?_, ?_⟩
  · intro l hb hp
    simp [parseAiResponse, hb, hp]
  · intro j hb hp harr
    cases j with
    | jarr l => simp [Json.isArr] at harr
    | jnull => simp [parseAiResponse, hb, hp]
    | jbool b => simp [parseAiResponse, hb, hp]
    | jnum n => simp [parseAiResponse, hb, hp]
    | jstr s => simp [parseAiResponse, hb, hp]
    | jobj fs => simp [parseAiResponse, hb, hp]
  · intro h
    rcases h with h | h
    · simp [parseAiResponse, h, syntheticRecord]
    · by_cases hb : startsBracket (sanitize raw) = true
      · simp [parseAiResponse, hb, h, syntheticRecord]
      · simp [parseAiResponse, hb, syntheticRecord]

/-- Claim C1, witness: a fenced response holding a one-object JSON array
parses to exactly that record. -/

theorem c1_parse_cases_witness :
    parseAiResponse "```json\n[\x7b\"Generated article\": \"Hello world\"\x7d]\n```"
      = [Json.jobj [("Generated article", Json.jstr "Hello world")]] :=
  (c1_parse_cases "```json\n[\x7b\"Generated article\": \"Hello world\"\x7d]\n```").1
    [Json.jobj [("Generated article", Json.jstr "Hello world")]] rfl rfl

/-- Claim C1, counterexample to the claim as stated: the input `[]` is a
valid JSON array of zero objects, and the parser yields zero records — not
"at least one". -/

theorem c1_counterexample :
    parseJson (sanitize "[]") = some (Json.jarr []) ∧ parseAiResponse "[]" = [] :=
  ⟨rfl, rfl⟩

/-- Claim C2: when the endpoint reports 503 on attempts 1 and 2, a success on
attempt 3 yields the successful result after exactly the two delays
`RETRY_DELAY * 1` and `RETRY_DELAY * 2` milliseconds, and a 503 on attempt 3
yields the terminal service-unavailable error after exactly 3 attempts with
no further retries. -/

theorem c2_retry_503 (outcomes : Nat → Outcome) (b1 b2 : String)
    (h1 : outcomes 1 = Outcome.http 503 b1) (h2 : outcomes 2 = Outcome.http 503 b2) :
    (∀ c, outcomes 3 = Outcome.ok c →
        groqRun outcomes = Run.success c [RETRY_DELAY * 1, RETRY_DELAY * 2] 3) ∧
    (∀ b3, outcomes 3 = Outcome.http 503 b3 →
        groqRun outcomes
          = Run.failed (GroqErr.svcUnavail 503 b3) [RETRY_DELAY * 1, RETRY_DELAY * 2] 3) := by
  constructor
  · intro c h3
    simp +decide [groqRun, MAX_RETRIES, goAttempt, h1, h2, h3]
  · intro b3 h3
    simp +decide [groqRun, MAX_RETRIES, goAttempt, h1, h2, h3]

/-- Claim C2, witness: a run with 503 on the first two attempts and success
on the third returns the content after delays of 2000 and 4000 milliseconds. -/

theorem c2_retry_503_witness :
    groqRun (fun n => if n = 3 then Outcome.ok "done" else Outcome.http 503 "busy")
      = Run.success "done" [2000, 4000] 3 :=
  (c2_retry_503 (fun n => if n = 3 then Outcome.ok "done" else Outcome.http 503 "busy")
    "busy" "busy" rfl rfl).1 "done" rfl

/-- Claim C7, amended: when an attempt completes with a non-success status
other than 503 and the error message built from it (which embeds the status
and response body) does not contain the substring "fetch", the client fails
on that attempt with the Groq-API error embedding status and body, with no
further delay and no further attempt, regardless of how much fuel (attempts)
remains; when that message does contain "fetch", the catch clause's
network-error heuristic retries it instead (see the counterexample). -/

theorem c7_non503_terminal (outcomes : Nat → Outcome) (fuel n : Nat) (ds : List Nat)
    (s : Nat) (b : String) (h : outcomes n = Outcome.http s b) (hs : s ≠ 503)
    (_hnok : ¬ (200 ≤ s ∧ s < 300)) (hf : includesFetch (apiErrMsg s b) = false) :
    goAttempt outcomes (fuel + 1) n ds = Run.failed (GroqErr.api s b) ds n := by
  simp [goAttempt, h, hs, hf]

/-- Claim C7, witness: a 404 with a body not containing "fetch" fails on
attempt 1, with no delays. -/

theorem c7_non503_terminal_witness :
    groqRun (fun _ => Outcome.http 404 "bad request")
      = Run.failed (GroqErr.api 404 "bad request") [] 1 :=
  c7_non503_terminal (fun _ => Outcome.http 404 "bad request") 2 1 [] 404 "bad request"
    rfl (by decide) (by decide) (by decide)

/-- Claim C7, counterexample to the claim as stated: a 400 whose response
body contains "fetch" is retried — the catch clause matches
`error.message.includes('fetch')` on the thrown Groq-API error — so the run
makes 3 attempts and 2 delays instead of failing immediately on attempt 1. -/

theorem c7_counterexample :
    groqRun (fun _ => Outcome.http 400 "fetch")
      = Run.failed (GroqErr.api 400 "fetch") [2000, 4000] 3 := by
  decide

/-- Claim C8: an empty (or missing, which the config default turns into
empty) credential makes the client fail with the configuration error before
any attempt — zero attempts, zero delays — and conversely a run that made at
least one attempt had a non-empty credential. -/

theorem c8_key_guard (apiKey : String) (outcomes : Nat → Outcome) :
    (apiKey = "" → groqResponse apiKey outcomes = Run.failed GroqErr.config [] 0) ∧
    (1 ≤ attemptsOf (groqResponse apiKey outcomes) → apiKey ≠ "") := by
  constructor
  · intro h
    simp [groqResponse, h]
  · intro h1 he
    rw [show groqResponse apiKey outcomes = Run.failed GroqErr.config [] 0 from by
      simp [groqResponse, he]] at h1
    simp [attemptsOf] at h1

/-- Claim C8, witness: the empty credential fails fast with zero attempts
even when every outcome would have succeeded. -/

theorem c8_key_guard_witness :
    groqResponse "" (fun _ => Outcome.ok "x") = Run.failed GroqErr.config [] 0 :=
  (c8_key_guard "" (fun _ => Outcome.ok "x")).1 rfl

theorem fromFalsyS_len (x y : String) (hy : 1 ≤ y.data.length) :
    1 ≤ (fromFalsyS x y).data.length := by
  unfold fromFalsyS
  split
  · exact hy
  · rename_i hne
    have hd : x.data ≠ [] := fun hnil => hne ((str_eq_empty_iff x).mpr hnil)
    have := List.length_pos.mpr hd
    omega

/-- Claim C3, amended: every Article produced by the generated-record mapping
has a non-empty title (the mapping synthesizes the
`{person}'s Perspective on Current Events` fallback when the derivation
yields nothing), but the vendor mapping sets no `title` at all and
synthesizes no fallback, so a vendor record without a title produces an
Article with both `title` and `originalTitle` empty (see the
counterexample). -/

theorem c3_title_nonempty :
    (∀ (r : RawGeneratedRecord) (i : Nat) (p : String),
        1 ≤ (mapGenerated r i p).title.data.length) ∧
    (∀ (a : ApiArticle) (i : Nat), (mapApiArticleToNewsArticle a i).title = "") := by
  constructor
  · intro r i p
    show 1 ≤ (fromFalsyS _ (p ++ aposS ++ "s Perspective on Current Events")).data.length
    apply fromFalsyS_len
    have h1 : (aposS.data).length = 1 := rfl
    have h2 : (("s Perspective on Current Events" : String).data).length = 31 := rfl
    simp only [strData_append, List.length_append]
    omega
  · intro a i
    rfl

/-- Claim C3, counterexample to the claim as stated: a vendor record lacking
every field maps to an Article whose `title` and `originalTitle` are both
empty — no fallback title is synthesized on the vendor path. -/

theorem c3_counterexample :
    (mapApiArticleToNewsArticle ⟨none, none, none, none, none, none⟩ 0).title = "" ∧
    (mapApiArticleToNewsArticle ⟨none, none, none, none, none, none⟩ 0).originalTitle
      = "" :=
  ⟨rfl, rfl⟩

/-- Claim C4, amended: for every non-empty generated body, the derived
summary is the text before the first double newline, falling back — when
that text is empty — to the text before the first single newline, truncated
to 200 characters plus an ellipsis when longer; and when the result is still
empty, the summary is instead the first 200 characters of the full body plus
an ellipsis. In particular a body whose first blank-line-separated paragraph
is non-empty and at most 200 characters long gets exactly that paragraph. -/

theorem c4_summary_spec (r : RawGeneratedRecord) (i : Nat) (p : String) (body : String)
    (h : r.generatedArticle = some body) (hb : body ≠ "") :
    (mapGenerated r i p).summary = specSummaryOfBody body := by
  simp [mapGenerated, specSummaryOfBody, fromFalsy, fromFalsyS, h, hb]

/-- Claim C4, witness: the body whose first paragraph is `Para one.` (nine
characters, under 200) derives exactly that paragraph as its summary. -/

theorem c4_summary_spec_witness :
    (mapGenerated ⟨some "Para one.\n\nRest of the article", none, none⟩ 0 "P").summary
      = "Para one." :=
  (c4_summary_spec ⟨some "Para one.\n\nRest of the article", none, none⟩ 0 "P"
    "Para one.\n\nRest of the article" rfl (by decide)).trans (by decide)

/-- Claim C4, counterexample to the claim as stated: for the non-empty body
`\n\nHi` the text before the first double newline and the text before the
first single newline are both empty, so the claim's derivation gives the
empty summary; the code instead falls through to the first 200 characters of
the full body plus an ellipsis, `\n\nHi...` — a fallback the claim omits. -/

theorem c4_counterexample :
    (mapGenerated ⟨some "\n\nHi", none, none⟩ 0 "P").summary = "\n\nHi..." ∧
    beforeSepS "\n\n" "\n\nHi" = "" ∧
    beforeSepS "\n" "\n\nHi" = "" ∧
    (mapGenerated ⟨some "\n\nHi", none, none⟩ 0 "P").summary ≠ "" := by
  refine ⟨by decide, by decide, by decide, by decide⟩

/-- Claim C9: for every non-empty generated body, the derived title is the
text before the first period with the period restored when that fragment is
at most 80 characters, and otherwise the first 60 characters of the body
plus an ellipsis. -/

theorem c9_title_spec (r : RawGeneratedRecord) (i : Nat) (p : String) (body : String)
    (h : r.generatedArticle = some body) (hb : body ≠ "") :
    (mapGenerated r i p).title = specTitleOfBody body := by
  have hcontent : fromFalsy r.generatedArticle "" = body := by
    simp [fromFalsy, h, hb]
  show fromFalsyS
      (if fromFalsy r.generatedArticle "" = "" then ""
       else if 80 < (beforeSepS "." (fromFalsy r.generatedArticle "")).data.length
       then strTake (fromFalsy r.generatedArticle "") 60 ++ "..."
       else beforeSepS "." (fromFalsy r.generatedArticle "") ++ ".")
      _ = specTitleOfBody body
  rw [hcontent, if_neg hb]
  rcases Nat.lt_or_ge 80 (beforeSepS "." body).data.length with h80 | h80
  · rw [if_pos h80]
    unfold fromFalsyS
    rw [if_neg (append_ne_empty_of_right _ "..." (by decide))]
    unfold specTitleOfBody
    rw [if_neg (by omega)]
  · rw [if_neg (by omega)]
    unfold fromFalsyS
    rw [if_neg (append_ne_empty_of_right _ "." (by decide))]
    unfold specTitleOfBody
    rw [if_pos h80]

/-- Claim C9, witness: the body `Short line. Rest of article...` derives the
title `Short line.` — the text before the first period with the period
restored. -/

theorem c9_title_spec_witness :
    (mapGenerated ⟨some "Short line. Rest of article...", none, none⟩ 0 "P").title
      = "Short line." :=
  (c9_title_spec ⟨some "Short line. Rest of article...", none, none⟩ 0 "P"
    "Short line. Rest of article..." rfl (by decide)).trans (by decide)

/-- Claim C10: the image assigned to a generated record depends only on its
position modulo the length of the fixed rotation — the same position class
always gets the same image, the record's content and the person never affect
it — and normalization is a pure function, so normalizing the same record
twice with the same index and person yields identical Articles. -/

theorem c10_image_positional :
    (∀ i j : Nat, i % newsImages.length = j % newsImages.length →
        getRandomNewsImage i = getRandomNewsImage j) ∧
    (∀ (r r' : RawGeneratedRecord) (i : Nat) (p p' : String),
        (mapGenerated r i p).imageUrl = (mapGenerated r' i p').imageUrl) ∧
    (∀ (r : RawGeneratedRecord) (i : Nat) (p : String),
        mapGenerated r i p = mapGenerated r i p) := by
  refine ⟨?_, ?_, ?_⟩
  · intro i j hmod
    unfold getRandomNewsImage
    rw [hmod]
  · intro r r' i p p'
    rfl
  · intro r i p
    rfl

/-- Claim C10, witness: positions 2 and 7 are the same modulo the rotation
length 5 and get the same image. -/

theorem c10_image_positional_witness :
    getRandomNewsImage 2 = getRandomNewsImage 7 :=
  c10_image_positional.1 2 7 (by decide)

theorem generateFullAIArticle_default (person title summary : String)
    (h1 : person ≠ "Albert Einstein") (h2 : person ≠ "Oprah Winfrey")
    (h3 : person ≠ "Elon Musk") (h4 : person ≠ "Default")
    (hp : person ∉ protoPropNames) :
    generateFullAIArticle person title summary
      = RenderResult.str (tmplDefault title summary) := by
  simp only [protoPropNames, List.mem_cons, List.not_mem_nil, or_false, not_or] at hp
  obtain ⟨hc, hho, hip, hpe, htl, hts, hvo, hdg, hds, hlg, hls, hpr⟩ := hp
  unfold generateFullAIArticle
  rw [if_neg h1, if_neg h2, if_neg h3, if_neg h4, if_neg hts, if_neg hc, if_neg hip,
    if_neg (show ¬ person ∈ throwingProtoNames by
      simp only [throwingProtoNames, List.mem_cons, List.not_mem_nil, or_false, not_or]
      exact ⟨hho, hpe, htl, hvo, hdg, hds, hlg, hls, hpr⟩)]

/-- Claim C5, amended: for every personName that is an own key of the
template table, and for every personName on neither the table nor
`Object.prototype`, the renderer returns a string containing the literal
title and the literal summary verbatim; a name absent from both resolves to
the generic default template, which interpolates both. But the lookup is a
prototype-chain bracket access, so a personName naming an inherited
`Object.prototype` property resolves to that inherited value instead of the
default template: `toString` yields the string `[object Undefined]`
(containing neither title nor summary), `constructor` yields a String
wrapper of the title only, `isPrototypeOf` yields the boolean false, and the
rest throw a TypeError. -/

theorem c5_renderer (person title summary : String) :
    (person ∈ tableKeys ∨ person ∉ protoPropNames →
      ∃ s, generateFullAIArticle person title summary = RenderResult.str s ∧
        strHasSub s title = true ∧ strHasSub s summary = true) ∧
    (person ∉ tableKeys → person ∉ protoPropNames →
      generateFullAIArticle person title summary
        = RenderResult.str (tmplDefault title summary)) ∧
    generateFullAIArticle "toString" title summary
      = RenderResult.str "[object Undefined]" := by
  refine ⟨?_, ?_, rfl⟩
  · intro h
    by_cases h1 : person = "Albert Einstein"
    · subst h1
      exact ⟨tmplEinstein title summary, rfl,
        (strHasSub_five einsteinA title einsteinB summary einsteinC).1,
        (strHasSub_five einsteinA title einsteinB summary einsteinC).2⟩
    by_cases h2 : person = "Oprah Winfrey"
    · subst h2
      exact ⟨tmplOprah title summary, rfl,
        (strHasSub_five oprahA title oprahB summary oprahC).1,
        (strHasSub_five oprahA title oprahB summary oprahC).2⟩
    by_cases h3 : person = "Elon Musk"
    · subst h3
      exact ⟨tmplElon title summary, rfl,
        (strHasSub_five elonA title elonB summary elonC).1,
        (strHasSub_five elonA title elonB summary elonC).2⟩
    by_cases h4 : person = "Default"
    · subst h4
      exact ⟨tmplDefault title summary, rfl,
        (strHasSub_five defaultA title defaultB summary defaultC).1,
        (strHasSub_five defaultA title defaultB summary defaultC).2⟩
    rcases h with hmem | hproto
    · exfalso
      revert hmem
      simp [tableKeys, h1, h2, h3, h4]
    · exact ⟨tmplDefault title summary,
        generateFullAIArticle_default person title summary h1 h2 h3 h4 hproto,
        (strHasSub_five defaultA title defaultB summary defaultC).1,
        (strHasSub_five defaultA title defaultB summary defaultC).2⟩
  · intro hnt hproto
    have h1 : person ≠ "Albert Einstein" := fun he =>
      hnt (he ▸ (by decide : ("Albert Einstein" : String) ∈ tableKeys))
    have h2 : person ≠ "Oprah Winfrey" := fun he =>
      hnt (he ▸ (by decide : ("Oprah Winfrey" : String) ∈ tableKeys))
    have h3 : person ≠ "Elon Musk" := fun he =>
      hnt (he ▸ (by decide : ("Elon Musk" : String) ∈ tableKeys))
    have h4 : person ≠ "Default" := fun he =>
      hnt (he ▸ (by decide : ("Default" : String) ∈ tableKeys))
    exact generateFullAIArticle_default person title summary h1 h2 h3 h4 hproto

/-- Claim C5, counterexample to the claim as stated: the personName
`toString` is not a key of the template table, yet it does not resolve to
the default template — the bracket access finds the inherited
`Object.prototype.toString`, and the rendered output is the string
`[object Undefined]`, which contains neither the title nor the summary. -/

theorem c5_counterexample :
    generateFullAIArticle "toString" "T42" "S99"
      = RenderResult.str "[object Undefined]" ∧
    strHasSub "[object Undefined]" "T42" = false ∧
    strHasSub "[object Undefined]" "S99" = false := by
  refine ⟨rfl, by decide, by decide⟩

/-- Claim C5, witness: a person absent from the table and from
`Object.prototype` renders with the generic default template. -/

theorem c5_renderer_witness :
    generateFullAIArticle "Unknown Person" "T42" "S99"
      = RenderResult.str (tmplDefault "T42" "S99") :=
  (c5_renderer "Unknown Person" "T42" "S99").2.1 (by decide) (by decide)
